import Mathlib

/-!
Verification development for the greensight-manager dashboard.

The business logic verified here is shallowly embedded from the React/Firebase
source:

* `src/components/invoices/InvoiceGenerator.tsx` — the `onSubmit` handler that
  derives an invoice from a quotation and flips the quotation status.
* `src/components/products/ProductList.tsx` — the product edit handler
  (`handleEditSubmit`), the inventory adjustment handler
  (`confirmQuantityChange`), and the quotation creation form
  (`QuotationForm.onSubmit` with its total-computing effect).
* The quotation list component (the `QuotationList` file) — delete and the
  entry point to invoice generation.

Modelling conventions:

* JavaScript numeric values are modelled as integers (`ℤ`), i.e. amounts in
  the currency's smallest unit; every claim under scrutiny is an algebraic
  identity or comparison (sums, products, orderings) valid over any linear
  ordered commutative ring, so nothing depends on this choice, and it keeps
  every operation kernel-computable for concrete witnesses.
* The Firebase realtime database is modelled as an explicit `Store` record of
  collections; `push` appends a record, `update` with a partial record merges
  the named fields into the addressed record, `remove` deletes it.  The
  fallibility of each asynchronous write is modelled by a boolean parameter
  (`pushOk`, `updateOk`, `writeOk`): the handler's try/catch produces its
  generic error outcome when a write fails, and the store retains exactly the
  writes that had already succeeded.
* `serverTimestamp()` placeholders (`createdAt` of a freshly pushed record,
  `updatedAt` of products) are assigned by the store collaborator; the
  generated quotation id of a push is passed in as a parameter.  Display-only
  enrichment fields (`customerName`, `productName`) live only in component
  state and are not part of the persisted records, so they are omitted.
-/

namespace GreenSight

/-- Product record as stored under `products/{id}` and loaded into the
components (interface `Product` in the source). -/
structure Product where
  id : String
  name : String
  type : String
  voltage : String
  rating : String
  make : String
  quantity : ℤ
  unit : String
  price : ℤ
  createdAt : ℤ
deriving DecidableEq, Repr

/-- Quotation line item as stored (interface `QuotationItem` with the
persisted fields `productId`, `quantity`, `unitPrice`, `subtotal`). -/
structure QItem where
  productId : String
  quantity : ℤ
  unitPrice : ℤ
  subtotal : ℤ
deriving DecidableEq, Repr

/-- Quotation status: `'pending' | 'approved' | 'rejected' | 'invoiced'`. -/
inductive QStatus where
  | pending
  | approved
  | rejected
  | invoiced
deriving DecidableEq, Repr

/-- Quotation record as stored under `quotations/{id}` (interface
`Quotation` in the source, with the generated key as `id`). -/
structure Quotation where
  id : String
  customerId : String
  items : List QItem
  totalAmount : ℤ
  validUntil : String
  status : QStatus
  notes : Option String
  createdAt : ℤ
deriving DecidableEq, Repr

/-- Customer record (interface `Customer` in the source). -/
structure Customer where
  id : String
  name : String
  email : String
  address : String
  location : String
  phone : String
deriving DecidableEq, Repr

/-- Additional invoice-only line: free-text description plus amount
(the `additionalItems` entries of the invoice form schema). -/
structure AdditionalItem where
  description : String
  amount : ℤ
deriving DecidableEq, Repr

/-- Invoice type chosen by the caller: `'customer' | 'company'`. -/
inductive InvoiceType where
  | customer
  | company
deriving DecidableEq, Repr

/-- Invoice status: `'active' | 'paid' | 'cancelled'`. -/
inductive InvoiceStatus where
  | active
  | paid
  | cancelled
deriving DecidableEq, Repr

/-- The zod-validated form values handed to `onSubmit` in
`InvoiceGenerator.tsx` (type `InvoiceFormValues`).  `additionalItems` is an
optional array in the schema, hence `Option (List _)` here. -/
structure InvoiceFormValues where
  invoiceNumber : String
  invoiceDate : String
  paymentTerms : String
  warrantyPeriod : Option String
  notes : Option String
  additionalItems : Option (List AdditionalItem)
deriving DecidableEq, Repr

/-- Invoice record as pushed to `invoices` (`invoiceData` in
`InvoiceGenerator.tsx`: the spread form values plus `quotationId`,
`customerId`, `items`, `totalAmount`, `type`, `status`; `createdAt` is a
`serverTimestamp()` placeholder assigned by the store and omitted here). -/
structure Invoice where
  invoiceNumber : String
  invoiceDate : String
  paymentTerms : String
  warrantyPeriod : Option String
  notes : Option String
  additionalItems : Option (List AdditionalItem)
  quotationId : String
  customerId : String
  items : List QItem
  totalAmount : ℤ
  type : InvoiceType
  status : InvoiceStatus
deriving DecidableEq, Repr

/-- The realtime-database collections the verified operations touch. -/
structure Store where
  products : List Product
  quotations : List Quotation
  invoices : List Invoice
deriving DecidableEq, Repr

/-- Invoice total as computed at the top of `onSubmit`: start from
`quotation.totalAmount`; when `additionalItems` is present and non-empty,
add each entry's `amount` in turn.  (Folding over an empty list adds
nothing, matching the skipped branch.) -/
def invoiceTotal (q : Quotation) (data : InvoiceFormValues) : ℤ :=
  match data.additionalItems with
  | none => q.totalAmount
  | some l => l.foldl (fun acc it => acc + it.amount) q.totalAmount

/-- The `invoiceData` object built in `onSubmit`: the form values spread
first, then `quotationId`, `customerId`, a verbatim copy of
`quotation.items`, the computed `totalAmount`, the chosen `type`, and
`status: 'active'`. -/
def mkInvoiceData (q : Quotation) (c : Customer) (data : InvoiceFormValues)
    (ity : InvoiceType) : Invoice :=
  { invoiceNumber := data.invoiceNumber
    invoiceDate := data.invoiceDate
    paymentTerms := data.paymentTerms
    warrantyPeriod := data.warrantyPeriod
    notes := data.notes
    additionalItems := data.additionalItems
    quotationId := q.id
    customerId := c.id
    items := q.items
    totalAmount := invoiceTotal q data
    type := ity
    status := InvoiceStatus.active }

/-- Outcomes of the invoice-generator submit handler: the success toast, or
the single catch-all error toast (`'Failed to generate invoice'`) raised by
the surrounding try/catch for any failure of either write. -/
inductive SubmitOutcome where
  | success
  | genericError
deriving DecidableEq, Repr

/-- Firebase `update(ref(db, 'quotations/' + qid), { status: s })`: a partial
update merging only the `status` field into the addressed record. -/
def setQuotationStatus (qs : List Quotation) (qid : String) (s : QStatus) :
    List Quotation :=
  qs.map fun q => if q.id = qid then { q with status := s } else q

/-- The `onSubmit` handler of `InvoiceGenerator.tsx`, run against a store.
`q`, `c` and `products` are the component props (the `products` prop is read
only by the preview rendering, not by the handler).  `pushOk` models whether
the `push(invoicesRef, invoiceData)` write succeeds and `updateOk` whether
the subsequent quotation-status update succeeds; a thrown write lands in the
catch block, which shows the one generic error toast. -/
def generateInvoiceRun (st : Store) (q : Quotation) (c : Customer)
    (products : List Product) (data : InvoiceFormValues) (ity : InvoiceType)
    (pushOk updateOk : Bool) : SubmitOutcome × Store :=
  let invoiceData := mkInvoiceData q c data ity
  if pushOk then
    let st1 := { st with invoices := st.invoices ++ [invoiceData] }
    if updateOk then
      (SubmitOutcome.success,
        { st1 with
            quotations := setQuotationStatus st1.quotations q.id QStatus.invoiced })
    else
      (SubmitOutcome.genericError, st1)
  else
    (SubmitOutcome.genericError, st)

/-- A draft line in the quotation form (interface `QuotationItem` local to
`QuotationForm`): the chosen product id, the entered quantity, and the cached
`product` reference set by `updateQuotationItem` when a product is picked. -/
structure DraftItem where
  productId : String
  quantity : ℤ
  product : Option Product
deriving DecidableEq, Repr

/-- The zod-validated values of the quotation form itself
(`customerId`, `validUntil`, optional `notes`). -/
structure QuotationFormValues where
  customerId : String
  validUntil : String
  notes : Option String
deriving DecidableEq, Repr

/-- The `total` state maintained by the form's effect: for each draft item
that carries a product reference, add `product.price * quantity` to the
running sum. -/
def computeTotal (items : List DraftItem) : ℤ :=
  items.foldl
    (fun sum it =>
      match it.product with
      | some p => sum + p.price * it.quantity
      | none => sum)
    0

/-- The unit price captured for a stored line: `item.product?.price || 0`. -/
def draftUnitPrice (it : DraftItem) : ℤ :=
  match it.product with
  | some p => p.price
  | none => 0

/-- The contribution of one draft line to the form's `total` state. -/
def draftContribution (it : DraftItem) : ℤ :=
  match it.product with
  | some p => p.price * it.quantity
  | none => 0

/-- The validation errors `QuotationForm.onSubmit` can raise before writing,
one per toast: empty item list, a line with no product selected, a line whose
product id resolves to no loaded product, and the insufficient-stock error,
which carries the offending product's available quantity and name (the toast
text is built from exactly those two values). -/
inductive QuotationError where
  | emptyItems
  | missingProductId
  | productNotFound
  | insufficientStock (available : ℤ) (name : String)
deriving DecidableEq, Repr

/-- The `for (const item of quotationItems)` validation loop of
`QuotationForm.onSubmit`: the first failing line determines the error; a line
fails when its `productId` is empty, when no loaded product has that id, or
when its quantity exceeds the product's available quantity. -/
def validateItems (products : List Product) :
    List DraftItem → Option QuotationError
  | [] => none
  | it :: rest =>
    if it.productId = "" then
      some QuotationError.missingProductId
    else
      match products.find? (fun p => p.id == it.productId) with
      | none => some QuotationError.productNotFound
      | some product =>
        if it.quantity > product.quantity then
          some (QuotationError.insufficientStock product.quantity product.name)
        else
          validateItems products rest

/-- The stored `items` array of `quotationData`: each draft mapped to
`productId`, `quantity`, `unitPrice = product?.price || 0` and
`subtotal = (product?.price || 0) * quantity`. -/
def mkQuotationItems (drafts : List DraftItem) : List QItem :=
  drafts.map fun it =>
    { productId := it.productId
      quantity := it.quantity
      unitPrice := draftUnitPrice it
      subtotal := draftUnitPrice it * it.quantity }

/-- The `quotationData` object pushed to `quotations`: the form values, the
mapped items, `totalAmount` taken from the `total` state, and
`status: 'pending'`.  `newId` is the key generated by the push and `now` the
server-assigned creation timestamp. -/
def mkQuotationData (data : QuotationFormValues) (drafts : List DraftItem)
    (newId : String) (now : ℤ) : Quotation :=
  { id := newId
    customerId := data.customerId
    items := mkQuotationItems drafts
    totalAmount := computeTotal drafts
    validUntil := data.validUntil
    status := QStatus.pending
    notes := data.notes
    createdAt := now }

/-- Outcomes of `QuotationForm.onSubmit`: the success toast carrying the
created record, one of the validation error toasts (raised before any
write), or the catch-all store error toast (`'Failed to create quotation'`)
when the push itself throws. -/
inductive CreateOutcome where
  | success (q : Quotation)
  | validationError (e : QuotationError)
  | storeError
deriving DecidableEq, Repr

/-- `QuotationForm.onSubmit` run against a store.  `products` is the
component's loaded product list (fetched once on mount); validation runs
before the single `push(quotationsRef, quotationData)` write, whose success
is modelled by `pushOk`. -/
def createQuotationRun (st : Store) (products : List Product)
    (data : QuotationFormValues) (drafts : List DraftItem)
    (newId : String) (now : ℤ) (pushOk : Bool) : CreateOutcome × Store :=
  if drafts.length = 0 then
    (CreateOutcome.validationError QuotationError.emptyItems, st)
  else
    match validateItems products drafts with
    | some e => (CreateOutcome.validationError e, st)
    | none =>
      if pushOk then
        let qd := mkQuotationData data drafts newId now
        (CreateOutcome.success qd, { st with quotations := st.quotations ++ [qd] })
      else
        (CreateOutcome.storeError, st)

/-- The edit-dialog form state of `ProductList` (`editForm`,
`Omit<Product, 'id' | 'createdAt'>`). -/
structure EditForm where
  name : String
  type : String
  voltage : String
  rating : String
  make : String
  quantity : ℤ
  unit : String
  price : ℤ
deriving DecidableEq, Repr

/-- Firebase `update(ref(db, 'products/' + id), { ...editForm, updatedAt })`:
every form field is merged into the record; `id` and `createdAt` are not in
the form and stay as stored (`updatedAt` is a server-timestamp placeholder,
not modelled). -/
def applyEdit (p : Product) (f : EditForm) : Product :=
  { p with
      name := f.name
      type := f.type
      voltage := f.voltage
      rating := f.rating
      make := f.make
      quantity := f.quantity
      unit := f.unit
      price := f.price }

/-- Outcomes of the product-edit submit handler: success toast, or the
catch-all error toast when the update write throws. -/
inductive EditOutcome where
  | success
  | storeError
deriving DecidableEq, Repr

/-- `handleEditSubmit` of `ProductList.tsx` run against a store: with a
product selected, it merges the edit form into that product's record with no
further validation of the submitted values. -/
def handleEditSubmitRun (st : Store) (selected : Product) (f : EditForm)
    (writeOk : Bool) : EditOutcome × Store :=
  if writeOk then
    (EditOutcome.success,
      { st with
          products := st.products.map fun p =>
            if p.id = selected.id then applyEdit p f else p })
  else
    (EditOutcome.storeError, st)

/-- Outcomes of the inventory-adjustment handler: success toast, the
`'Quantity cannot be negative.'` rejection, or the catch-all error toast
when the update write throws. -/
inductive AdjustOutcome where
  | success
  | negativeError
  | storeError
deriving DecidableEq, Repr

/-- `confirmQuantityChange` of `ProductList.tsx` run against a store:
`newQuantity = selected.quantity + quantityChange`; a negative result is
rejected before any write, otherwise only the `quantity` field of the
selected product's record is updated. -/
def confirmQuantityChangeRun (st : Store) (selected : Product)
    (quantityChange : ℤ) (writeOk : Bool) : AdjustOutcome × Store :=
  let newQuantity := selected.quantity + quantityChange
  if newQuantity < 0 then
    (AdjustOutcome.negativeError, st)
  else if writeOk then
    (AdjustOutcome.success,
      { st with
          products := st.products.map fun p =>
            if p.id = selected.id then { p with quantity := newQuantity } else p })
  else
    (AdjustOutcome.storeError, st)

/-! Helper lemmas about the fold-based total computations. -/

/-- Folding the additional-item amounts onto an accumulator adds their sum. -/
lemma foldl_add_amount (l : List AdditionalItem) (acc : ℤ) :
    l.foldl (fun a it => a + it.amount) acc = acc + (l.map AdditionalItem.amount).sum := by
  induction l generalizing acc with
  | nil => simp
  | cons it rest ih => simp [ih, add_assoc]

/-- Generalized-accumulator form of the quotation form's total effect. -/
lemma foldl_total (acc : ℤ) (l : List DraftItem) :
    List.foldl
      (fun sum it =>
        match it.product with
        | some p => sum + p.price * it.quantity
        | none => sum)
      acc l = acc + (l.map draftContribution).sum := by
  induction l generalizing acc with
  | nil => simp
  | cons it rest ih =>
    cases hp : it.product with
    | none => simp [List.foldl_cons, hp, ih, draftContribution, add_assoc]
    | some p => simp [List.foldl_cons, hp, ih, draftContribution, add_assoc]

/-- The form's `total` state is the sum of the per-line contributions. -/
lemma computeTotal_eq_sum (l : List DraftItem) :
    computeTotal l = (l.map draftContribution).sum := by
  unfold computeTotal
  rw [foldl_total]
  ring

/-- When every line of the list resolves to a loaded product with enough
stock, the validation loop accepts the list. -/
lemma validateItems_none_of (products : List Product) (l : List DraftItem)
    (hok : ∀ it ∈ l, it.productId ≠ "" ∧
      ∃ p, products.find? (fun x => x.id == it.productId) = some p ∧
        it.quantity ≤ p.quantity) :
    validateItems products l = none := by
  induction l with
  | nil => rfl
  | cons it rest ih =>
    obtain ⟨hid, p, hp, hle⟩ := hok it (List.mem_cons_self it rest)
    have hrest := ih fun x hx => hok x (List.mem_cons_of_mem it hx)
    simp [validateItems, hid, hp, not_lt.mpr hle, hrest]

/-- When every line resolves to a loaded product and some line exceeds its
product's stock, the validation loop reports the insufficient-stock error of
an offending line, carrying that product's available quantity and name. -/
lemma validateItems_stock (products : List Product) (l : List DraftItem)
    (hres : ∀ it ∈ l, it.productId ≠ "" ∧
      ∃ p, products.find? (fun x => x.id == it.productId) = some p)
    (hbad : ∃ it ∈ l, ∃ p,
      products.find? (fun x => x.id == it.productId) = some p ∧
        it.quantity > p.quantity) :
    ∃ it ∈ l, ∃ p,
      products.find? (fun x => x.id == it.productId) = some p ∧
        it.quantity > p.quantity ∧
        validateItems products l =
          some (QuotationError.insufficientStock p.quantity p.name) := by
  induction l with
  | nil => simp at hbad
  | cons it rest ih =>
    obtain ⟨hid, p, hp⟩ := hres it (List.mem_cons_self it rest)
    by_cases hq : it.quantity > p.quantity
    · exact ⟨it, List.mem_cons_self it rest, p, hp, hq,
        by simp [validateItems, hid, hp, hq]⟩
    · have hbad' : ∃ x ∈ rest, ∃ px,
          products.find? (fun y => y.id == x.productId) = some px ∧
            x.quantity > px.quantity := by
        obtain ⟨x, hx, px, hpx, hqx⟩ := hbad
        rcases List.mem_cons.mp hx with hxit | hx'
        · subst hxit
          rw [hp] at hpx
          cases hpx
          exact absurd hqx hq
        · exact ⟨x, hx', px, hpx, hqx⟩
      obtain ⟨x, hx, px, hpx, hqx, hval⟩ :=
        ih (fun y hy => hres y (List.mem_cons_of_mem it hy)) hbad'
      exact ⟨x, List.mem_cons_of_mem it hx, px, hpx, hqx,
        by simp [validateItems, hid, hp, hq, hval]⟩

/-! Concrete fixtures used by witnesses and counterexamples, following the
scenario data of the specification (a 330W panel at price 100 and a second
product at price 50). -/

/-- Sample product A: 10 units in stock at unit price 100. -/
def prodA : Product :=
  { id := "pA", name := "Solar Panel 330W", type := "solar_panel",
    voltage := "24", rating := "330W", make := "Acme", quantity := 10,
    unit := "piece", price := 100, createdAt := 0 }

/-- Sample product B: 5 units in stock at unit price 50. -/
def prodB : Product :=
  { id := "pB", name := "Charge Controller", type := "controller",
    voltage := "12", rating := "30A", make := "Acme", quantity := 5,
    unit := "piece", price := 50, createdAt := 0 }

/-- Sample customer. -/
def custC : Customer :=
  { id := "c1", name := "Asha", email := "asha@example.com",
    address := "12 Lake Road", location := "Madurai", phone := "9876543210" }

/-- A quotation over products A and B that is already in `invoiced` status. -/
def quoteInv : Quotation :=
  { id := "q1", customerId := "c1",
    items :=
      [ { productId := "pA", quantity := 2, unitPrice := 100, subtotal := 200 },
        { productId := "pB", quantity := 1, unitPrice := 50, subtotal := 50 } ],
    totalAmount := 250, validUntil := "2026-11-10",
    status := QStatus.invoiced, notes := none, createdAt := 1 }

/-- A store holding the two sample products and the invoiced quotation. -/
def baseStore : Store :=
  { products := [prodA, prodB], quotations := [quoteInv], invoices := [] }

/-- Invoice form data with one additional item of amount 75. -/
def invForm : InvoiceFormValues :=
  { invoiceNumber := "INV-000001", invoiceDate := "2026-10-11",
    paymentTerms := "due on receipt", warrantyPeriod := none, notes := none,
    additionalItems := some [{ description := "Installation", amount := 75 }] }

/-- Quotation form data for the sample customer. -/
def qFormVals : QuotationFormValues :=
  { customerId := "c1", validUntil := "2026-11-10", notes := none }

/-- A draft line requesting zero units of product A. -/
def zeroDraft : DraftItem :=
  { productId := "pA", quantity := 0, product := some prodA }

/-- A draft line requesting 99 units of product A (only 10 available). -/
def bigDraft : DraftItem :=
  { productId := "pA", quantity := 99, product := some prodA }

/-- The specification's scenario drafts: 2 units of A, 1 unit of B. -/
def draftsC : List DraftItem :=
  [ { productId := "pA", quantity := 2, product := some prodA },
    { productId := "pB", quantity := 1, product := some prodB } ]

/-- The scenario drafts in the opposite order. -/
def draftsC' : List DraftItem :=
  [ { productId := "pB", quantity := 1, product := some prodB },
    { productId := "pA", quantity := 2, product := some prodA } ]

/-- The record created from the scenario drafts. -/
def qdC : Quotation := mkQuotationData qFormVals draftsC "q7" 3

/-- The store after pushing the scenario quotation. -/
def stC' : Store := { baseStore with quotations := baseStore.quotations ++ [qdC] }

/-- An edit form submitting a negative quantity for product A. -/
def negEditForm : EditForm :=
  { name := "Solar Panel 330W", type := "solar_panel", voltage := "24",
    rating := "330W", make := "Acme", quantity := -5, unit := "piece",
    price := 100 }

/-! Claim theorems. -/

/-- C1 counterexample: invoking the invoice generator on a quotation whose
status is already `invoiced`, with both writes succeeding, does not fail with
an "already invoiced" error and does write: the outcome is the success
outcome and a new invoice record appears in the store, refuting the claim
that the operation is a no-op error. -/
theorem already_invoiced_not_rejected_cex :
    quoteInv.status = QStatus.invoiced
    ∧ (generateInvoiceRun baseStore quoteInv custC [] invForm
        InvoiceType.customer true true).1 = SubmitOutcome.success
    ∧ (generateInvoiceRun baseStore quoteInv custC [] invForm
        InvoiceType.customer true true).2.invoices ≠ baseStore.invoices := by
  decide

/-- C1 (corrected): the invoice generator performs no status check.  For a
quotation already in `invoiced` status, the operation with both writes
succeeding reports success, appends a new invoice record derived from the
quotation, and rewrites the quotation's status to `invoiced` again. -/
theorem already_invoiced_still_generates (st : Store) (q : Quotation)
    (c : Customer) (products : List Product) (data : InvoiceFormValues)
    (ity : InvoiceType) (h : q.status = QStatus.invoiced) :
    generateInvoiceRun st q c products data ity true true =
      (SubmitOutcome.success,
        { st with
            invoices := st.invoices ++ [mkInvoiceData q c data ity]
            quotations := setQuotationStatus st.quotations q.id QStatus.invoiced }) :=
  rfl

/-- C1 witness: the corrected claim holds at the concrete invoiced
quotation. -/
theorem already_invoiced_still_generates_w :
    quoteInv.status = QStatus.invoiced
    ∧ generateInvoiceRun baseStore quoteInv custC [] invForm
        InvoiceType.customer true true =
      (SubmitOutcome.success,
        { baseStore with
            invoices :=
              baseStore.invoices ++ [mkInvoiceData quoteInv custC invForm InvoiceType.customer]
            quotations :=
              setQuotationStatus baseStore.quotations quoteInv.id QStatus.invoiced }) :=
  ⟨rfl, already_invoiced_still_generates baseStore quoteInv custC [] invForm
    InvoiceType.customer rfl⟩

/-- C2 counterexample: when the quotation-status update fails after the
invoice record was created, the handler reports the same generic error
outcome as when the invoice creation itself fails — even though in the first
case the invoice record was written — so the partial failure is not
distinguishable from a plain failure. -/
theorem partial_failure_same_error_cex :
    (generateInvoiceRun baseStore quoteInv custC [] invForm
        InvoiceType.customer true false).1
      = (generateInvoiceRun baseStore quoteInv custC [] invForm
        InvoiceType.customer false true).1
    ∧ (generateInvoiceRun baseStore quoteInv custC [] invForm
        InvoiceType.customer true false).2.invoices ≠ baseStore.invoices
    ∧ (generateInvoiceRun baseStore quoteInv custC [] invForm
        InvoiceType.customer false true).2 = baseStore := by
  decide

/-- C2 (corrected): if the invoice creation fails, the store (and hence the
quotation) is unchanged; if the status update fails after the invoice was
created, the invoice record remains in the store but the failure is reported
through the same generic error outcome as a creation failure — no distinct
consistency warning exists. -/
theorem invoice_two_write_failure_modes (st : Store) (q : Quotation)
    (c : Customer) (products : List Product) (data : InvoiceFormValues)
    (ity : InvoiceType) (uo : Bool) :
    generateInvoiceRun st q c products data ity false uo
        = (SubmitOutcome.genericError, st)
    ∧ generateInvoiceRun st q c products data ity true false
        = (SubmitOutcome.genericError,
            { st with invoices := st.invoices ++ [mkInvoiceData q c data ity] }) :=
  ⟨rfl, rfl⟩

/-- C5 (confirmed): the generated invoice's total is the quotation's total
plus the sum of the additional items' amounts; with no additional items
(absent or empty list) it equals the quotation's total exactly; and the
invoice status is initialized to `active`. -/
theorem invoice_total_and_status (q : Quotation) (c : Customer)
    (data : InvoiceFormValues) (ity : InvoiceType) :
    (mkInvoiceData q c data ity).totalAmount
        = q.totalAmount + ((data.additionalItems.getD []).map AdditionalItem.amount).sum
    ∧ (mkInvoiceData q c { data with additionalItems := none } ity).totalAmount
        = q.totalAmount
    ∧ (mkInvoiceData q c { data with additionalItems := some [] } ity).totalAmount
        = q.totalAmount
    ∧ (mkInvoiceData q c data ity).status = InvoiceStatus.active := by
  refine ⟨?_, rfl, rfl, rfl⟩
  show invoiceTotal q data = _
  unfold invoiceTotal
  cases data.additionalItems with
  | none => simp
  | some l => simp [foldl_add_amount]

/-- C6 (confirmed): the generated invoice carries a verbatim copy of the
quotation's items, and the submit handler's outcome and store effect do not
depend on the current product data passed to the component — so a later
product-price change cannot affect the invoice's items or total. -/
theorem invoice_items_verbatim (st : Store) (q : Quotation) (c : Customer)
    (prods prods' : List Product) (data : InvoiceFormValues)
    (ity : InvoiceType) (pushOk updateOk : Bool) :
    (mkInvoiceData q c data ity).items = q.items
    ∧ generateInvoiceRun st q c prods data ity pushOk updateOk
        = generateInvoiceRun st q c prods' data ity pushOk updateOk :=
  ⟨rfl, rfl⟩

/-- C9 (confirmed): submitting the quotation form with an empty item list is
rejected with the empty-quotation validation error and leaves the store
unchanged. -/
theorem empty_quotation_rejected (st : Store) (products : List Product)
    (data : QuotationFormValues) (newId : String) (now : ℤ) (pushOk : Bool) :
    createQuotationRun st products data [] newId now pushOk
      = (CreateOutcome.validationError QuotationError.emptyItems, st) :=
  rfl

/-- C10 (confirmed): the fully successful invoice generation leaves the
product collection untouched, rewrites in the quotation collection only the
`status` field of the records addressed by the quotation's id (every other
field of every quotation record is kept), and appends exactly the derived
invoice record. -/
theorem invoice_generation_frame (st : Store) (q : Quotation) (c : Customer)
    (prods : List Product) (data : InvoiceFormValues) (ity : InvoiceType) :
    (generateInvoiceRun st q c prods data ity true true).2.products = st.products
    ∧ (generateInvoiceRun st q c prods data ity true true).2.quotations
        = st.quotations.map
            (fun r => if r.id = q.id then { r with status := QStatus.invoiced } else r)
    ∧ (generateInvoiceRun st q c prods data ity true true).2.invoices
        = st.invoices ++ [mkInvoiceData q c data ity] :=
  ⟨rfl, rfl, rfl⟩

/-- C3 counterexample: a creation request with a single line of quantity
zero (not exceeding stock) is not rejected: the submit succeeds and a
quotation record is written, refuting the claim that zero or negative
quantities produce an error and no write. -/
theorem zero_quantity_not_rejected_cex :
    zeroDraft.quantity = 0
    ∧ (createQuotationRun baseStore [prodA, prodB] qFormVals [zeroDraft]
        "q9" 2 true).1
      = CreateOutcome.success (mkQuotationData qFormVals [zeroDraft] "q9" 2)
    ∧ (createQuotationRun baseStore [prodA, prodB] qFormVals [zeroDraft]
        "q9" 2 true).2.quotations ≠ baseStore.quotations := by
  decide

/-- C3 (corrected): the quotation form validates no lower bound on
quantities.  Whenever every line selects a known product and no line's
quantity exceeds that product's available quantity — including lines with
zero or negative quantities — the submit succeeds and the quotation record
is written with those quantities. -/
theorem quotation_no_positivity_check (st : Store) (products : List Product)
    (data : QuotationFormValues) (drafts : List DraftItem) (newId : String)
    (now : ℤ) (hne : drafts ≠ [])
    (hok : ∀ it ∈ drafts, it.productId ≠ "" ∧
      ∃ p, products.find? (fun x => x.id == it.productId) = some p ∧
        it.quantity ≤ p.quantity) :
    createQuotationRun st products data drafts newId now true =
      (CreateOutcome.success (mkQuotationData data drafts newId now),
        { st with quotations := st.quotations ++ [mkQuotationData data drafts newId now] }) := by
  have hv : validateItems products drafts = none :=
    validateItems_none_of products drafts hok
  have hlen : ¬ drafts.length = 0 := by
    simpa [List.length_eq_zero] using hne
  simp [createQuotationRun, hlen, hv]

/-- C3 witness: the corrected claim applied to the concrete zero-quantity
request, showing it is accepted and written. -/
theorem quotation_no_positivity_check_w :
    zeroDraft.quantity = 0
    ∧ createQuotationRun baseStore [prodA, prodB] qFormVals [zeroDraft] "q9" 2 true =
      (CreateOutcome.success (mkQuotationData qFormVals [zeroDraft] "q9" 2),
        { baseStore with
            quotations :=
              baseStore.quotations ++ [mkQuotationData qFormVals [zeroDraft] "q9" 2] }) := by
  refine ⟨rfl, quotation_no_positivity_check baseStore [prodA, prodB] qFormVals
    [zeroDraft] "q9" 2 (by decide) ?_⟩
  intro it hit
  have h : it = zeroDraft := by simpa using hit
  subst h
  exact ⟨by decide, prodA, rfl, by decide⟩

/-- C4 (confirmed): a successfully created quotation stores a total equal to
the sum over its stored items of quantity times unit price, every stored
subtotal equals quantity times unit price, and the computed grand total is
invariant under permutation of the draft line list. -/
theorem quotation_total_is_sum (st : Store) (products : List Product)
    (data : QuotationFormValues) (drafts : List DraftItem) (newId : String)
    (now : ℤ) (pushOk : Bool) (qd : Quotation) (st' : Store)
    (drafts' : List DraftItem) :
    (createQuotationRun st products data drafts newId now pushOk
        = (CreateOutcome.success qd, st') →
      qd.totalAmount = (qd.items.map fun it => it.quantity * it.unitPrice).sum
      ∧ ∀ it ∈ qd.items, it.subtotal = it.quantity * it.unitPrice)
    ∧ (drafts.Perm drafts' → computeTotal drafts = computeTotal drafts') := by
  constructor
  · intro h
    have hqd : qd = mkQuotationData data drafts newId now := by
      by_cases h0 : drafts.length = 0
      · simp [createQuotationRun, h0] at h
      · cases hv : validateItems products drafts with
        | some e => simp [createQuotationRun, h0, hv] at h
        | none =>
          cases pushOk with
          | false => simp [createQuotationRun, h0, hv] at h
          | true =>
            simp [createQuotationRun, h0, hv] at h
            exact h.1.symm
    subst hqd
    constructor
    · show computeTotal drafts
        = ((mkQuotationItems drafts).map fun it => it.quantity * it.unitPrice).sum
      rw [computeTotal_eq_sum]
      unfold mkQuotationItems
      rw [List.map_map]
      congr 1
      congr 1
      funext d
      cases hd : d.product with
      | none => simp [draftContribution, draftUnitPrice, hd]
      | some p => simp [draftContribution, draftUnitPrice, hd, mul_comm]
    · intro it hit
      simp only [mkQuotationData, mkQuotationItems, List.mem_map] at hit
      obtain ⟨d, _, rfl⟩ := hit
      simp [mul_comm]
  · intro hperm
    rw [computeTotal_eq_sum, computeTotal_eq_sum]
    exact List.Perm.sum_eq (hperm.map draftContribution)

/-- C4 witness: the specification's scenario — lines (product A, qty 2,
price 100) and (product B, qty 1, price 50) — stores total 250 equal to the
item sum, with honest subtotals, and reordering the two lines leaves the
computed total unchanged. -/
theorem quotation_total_is_sum_w :
    (qdC.totalAmount = (qdC.items.map fun it => it.quantity * it.unitPrice).sum
      ∧ ∀ it ∈ qdC.items, it.subtotal = it.quantity * it.unitPrice)
    ∧ computeTotal draftsC = computeTotal draftsC' :=
  ⟨(quotation_total_is_sum baseStore [prodA, prodB] qFormVals draftsC "q7" 3
      true qdC stC' draftsC').1 (by decide),
    (quotation_total_is_sum baseStore [prodA, prodB] qFormVals draftsC "q7" 3
      true qdC stC' draftsC').2 (by decide)⟩

/-- C7 (confirmed): when every line of a non-trivially-resolving request
selects a known product and some line's quantity exceeds that product's
available quantity, the submit is rejected with the insufficient-stock error
carrying the offending product's available quantity and name, and the store
is unchanged — the check runs before the write. -/
theorem insufficient_stock_rejected (st : Store) (products : List Product)
    (data : QuotationFormValues) (drafts : List DraftItem) (newId : String)
    (now : ℤ) (pushOk : Bool)
    (hres : ∀ it ∈ drafts, it.productId ≠ "" ∧
      ∃ p, products.find? (fun x => x.id == it.productId) = some p)
    (hbad : ∃ it ∈ drafts, ∃ p,
      products.find? (fun x => x.id == it.productId) = some p ∧
        it.quantity > p.quantity) :
    ∃ it ∈ drafts, ∃ p,
      products.find? (fun x => x.id == it.productId) = some p ∧
        it.quantity > p.quantity ∧
        createQuotationRun st products data drafts newId now pushOk =
          (CreateOutcome.validationError
            (QuotationError.insufficientStock p.quantity p.name), st) := by
  obtain ⟨it, hit, p, hp, hq, hval⟩ := validateItems_stock products drafts hres hbad
  have hlen : ¬ drafts.length = 0 := by
    cases drafts with
    | nil => simp at hit
    | cons a l => simp
  exact ⟨it, hit, p, hp, hq, by simp [createQuotationRun, hlen, hval]⟩

/-- C7 witness: requesting 99 units of product A with only 10 available is
rejected with the stock error naming product A and its available quantity,
and the store is unchanged. -/
theorem insufficient_stock_rejected_w :
    ∃ it ∈ [bigDraft], ∃ p,
      [prodA, prodB].find? (fun x => x.id == it.productId) = some p ∧
        it.quantity > p.quantity ∧
        createQuotationRun baseStore [prodA, prodB] qFormVals [bigDraft]
          "q8" 4 true =
          (CreateOutcome.validationError
            (QuotationError.insufficientStock p.quantity p.name), baseStore) := by
  refine insufficient_stock_rejected baseStore [prodA, prodB] qFormVals
    [bigDraft] "q8" 4 true ?_ ?_
  · intro it hit
    have h : it = bigDraft := by simpa using hit
    subst h
    exact ⟨by decide, prodA, rfl⟩
  · exact ⟨bigDraft, by simp, prodA, rfl, by decide⟩

/-- C8 counterexample: the direct-edit handler writes the submitted form
with no non-negativity check, so a product with non-negative stored quantity
can be driven negative by a direct edit — refuting the claim that quantity
never becomes negative through the mutating operations. -/
theorem direct_edit_negative_cex :
    (0 : ℤ) ≤ prodA.quantity
    ∧ (handleEditSubmitRun baseStore prodA negEditForm true).1 = EditOutcome.success
    ∧ ∃ p ∈ (handleEditSubmitRun baseStore prodA negEditForm true).2.products,
        p.quantity < 0 := by
  decide

/-- C8 (corrected): the delta-adjustment operation rejects any adjustment
whose resulting quantity would be negative and leaves the store unchanged;
the direct-edit handler, by contrast, performs no non-negativity check and
merges the submitted form values (including the quantity) verbatim into the
selected product's record. -/
theorem adjustment_rejects_negative (st : Store) (selected : Product)
    (delta : ℤ) (f : EditForm) (writeOk : Bool)
    (h : selected.quantity + delta < 0) :
    confirmQuantityChangeRun st selected delta writeOk
        = (AdjustOutcome.negativeError, st)
    ∧ (handleEditSubmitRun st selected f true).2.products
        = st.products.map (fun p => if p.id = selected.id then applyEdit p f else p) :=
  ⟨by simp [confirmQuantityChangeRun, h], rfl⟩

/-- C8 witness: removing 8 units from product B (5 in stock) is rejected
with the store unchanged, while the direct-edit equation holds at the same
inputs. -/
theorem adjustment_rejects_negative_w :
    prodB.quantity + (-8) < 0
    ∧ confirmQuantityChangeRun baseStore prodB (-8) true
        = (AdjustOutcome.negativeError, baseStore)
    ∧ (handleEditSubmitRun baseStore prodB negEditForm true).2.products
        = baseStore.products.map
            (fun p => if p.id = prodB.id then applyEdit p negEditForm else p) := by
  refine ⟨by decide, ?_⟩
  have h := adjustment_rejects_negative baseStore prodB (-8) negEditForm true (by decide)
  exact ⟨h.1, h.2⟩

end GreenSight
